import Mathlib

/-!
Shallow embedding of the collaborative terminal subsystem of
`crates/project/src/terminals.rs`, together with theorems settling the
spec's claims about it.

Modelling conventions:
* `TerminalId` (`u64` in the source, produced from `usize` model ids) is `Nat`.
* A `WeakModelHandle<Terminal>` is represented by its gpui model id; whether
  `upgrade` succeeds is given by a liveness map `live : Nat → Bool` supplied by
  the environment.
* An `anyhow::Result` that can also hit a Rust `todo!()` is modelled by
  `RunResult`: `ok`, `err` (anyhow error), or `panic` (a `todo!`/panic).
* Effects (RPC sends, observer registration, `cx.notify()`) are returned
  explicitly alongside the new state.
-/

/-- `pub type TerminalId = u64;` — modelled as `Nat`. -/
abbrev TerminalId := Nat

/-- A `WeakModelHandle<terminal::Terminal>` entry of the registry, identified
by its gpui model id (`handle.id()`). -/
structure WeakHandle where
  id : Nat
deriving DecidableEq, Repr

/-- The `Terminals` struct: host-side registry of weak handles plus the
guest-side cached directory (`remote_ids`). -/
structure Terminals where
  local_handles : List WeakHandle
  remote_ids : List TerminalId
deriving DecidableEq, Repr

/-- The RPC messages this file sends (`proto::UpdateTerminals`,
`proto::OpenTerminal`). -/
inductive RpcMessage where
  | updateTerminals (project_id : Nat) (terminals : List TerminalId)
  | openTerminal (project_id : Nat) (id : TerminalId)
deriving DecidableEq, Repr

/-- Result of running a fallible Rust function: `Ok`, an `anyhow` error with
its message, or a panic (the source's `todo!("TODO kb")` placeholders). -/
inductive RunResult (α : Type) where
  | ok : α → RunResult α
  | err : String → RunResult α
  | panic : String → RunResult α
deriving DecidableEq, Repr

/-- `proto::OpenTerminalResponse` fields, kept opaque (the source never
constructs one: both fields are `todo!`). -/
structure OpenTerminalResponse where
  vte_state : List Nat
  visible_terminal_cells : List Nat
deriving DecidableEq, Repr

/-- The registry lookup inside `handle_open_terminal`:
`local_handles.iter().find_map(|handle| if handle.id() == terminal_id
{ Some(handle.upgrade(cx)?) } else { None })`.  An entry whose id matches but
whose weak handle can no longer be upgraded yields `None` (the `?` inside the
closure) and the scan continues. -/
def lookupTerminal (handles : List WeakHandle) (live : Nat → Bool)
    (terminal_id : Nat) : Option Nat :=
  handles.findSome? fun handle =>
    if handle.id == terminal_id then
      if live handle.id then some handle.id else none
    else none

/-- `Project::handle_open_terminal`: resolve the requested id through
`lookupTerminal`; on failure return the anyhow context error
`"no terminal found for {terminal_id}"`; on success the source evaluates
`OpenTerminalResponse { vte_state: todo!("TODO kb"), visible_terminal_cells:
todo!() }`, which panics. -/
def handle_open_terminal (st : Terminals) (live : Nat → Bool)
    (terminal_id : Nat) : RunResult OpenTerminalResponse :=
  match lookupTerminal st.local_handles live terminal_id with
  | none => .err ("no terminal found for " ++ toString terminal_id)
  | some _ => .panic "TODO kb"

/-- `Project::handle_update_terminals`: the guest overwrites
`terminals.remote_ids` with the message payload, wholesale. -/
def handle_update_terminals (st : Terminals)
    (payload_terminals : List TerminalId) : Terminals :=
  { st with remote_ids := payload_terminals }

/-- `Project::shared_terminals`: read-only view of the cached directory. -/
def shared_terminals (st : Terminals) : List TerminalId :=
  st.remote_ids

/-- The slice of `Project` state that `create_terminal` and the release
observer touch, plus the model-id allocation counter of the gpui context. -/
structure ProjectState where
  terminals : Terminals
  is_remote : Bool
  remote_id : Option Nat
  next_model_id : Nat
deriving DecidableEq, Repr

/-- Modelled from the spec: the gpui model-id allocator behind
`cx.add_model` is not part of the sampled sources; the spec's Terminal
Identity Allocator "assigns a process-unique, monotonically-stable
identifier to every host-created terminal".  Modelled as a monotone counter:
the fresh id is the current counter value, never previously issued. -/
def freshModelId (st : ProjectState) : Nat :=
  st.next_model_id

/-- Everything a call to `Project::create_terminal` produces: the returned
value, the project state afterwards, the RPC messages sent, and the ids for
which an `observe_release` observer was attached. -/
structure CreateOutcome where
  result : RunResult Nat
  state : ProjectState
  sent : List RpcMessage
  observersAttached : List Nat
deriving Repr

/-- `Project::create_terminal`: a guest (`is_remote`) fails immediately with
`"creating terminals as a guest is not supported yet"`.  On the host, if
`TerminalBuilder::new` succeeds (`builderOk`), the new handle is appended to
`local_handles`, a release observer is attached for its id, and — only if
`remote_id()` is `Some(project_id)` — an `UpdateTerminals` message carrying
the full snapshot of all registry ids is sent.  If the builder fails, the
error propagates and nothing happens. -/
def create_terminal (st : ProjectState) (builderOk : Bool) : CreateOutcome :=
  if st.is_remote then
    { result := .err "creating terminals as a guest is not supported yet"
      state := st
      sent := []
      observersAttached := [] }
  else if builderOk then
    let id := freshModelId st
    let handles := st.terminals.local_handles ++ [⟨id⟩]
    { result := .ok id
      state :=
        { st with
          terminals := { st.terminals with local_handles := handles }
          next_model_id := id + 1 }
      sent :=
        match st.remote_id with
        | some project_id =>
            [RpcMessage.updateTerminals project_id (handles.map WeakHandle.id)]
        | none => []
      observersAttached := [id] }
  else
    { result := .err "terminal builder error"
      state := st
      sent := []
      observersAttached := [] }

/-- Effects of the `observe_release` closure body. -/
structure ReleaseOutcome where
  state : ProjectState
  sent : List RpcMessage
  notified : Bool
deriving Repr

/-- The `observe_release` closure attached by `create_terminal`: when the
terminal with the captured `id` is destroyed, find the first registry entry
with that id, remove it, and call `cx.notify()`.  The closure body sends no
RPC message. -/
def observe_release_closure (st : ProjectState) (id : Nat) : ReleaseOutcome :=
  match st.terminals.local_handles.findIdx? (fun terminal => terminal.id == id) with
  | some index =>
      { state :=
          { st with
            terminals :=
              { st.terminals with
                local_handles := st.terminals.local_handles.eraseIdx index } }
        sent := []
        notified := true }
  | none => { state := st, sent := [], notified := false }

/-- `Project::open_remote_terminal`: sends a one-way `OpenTerminal` message
via `client.send` (adding the context `"remote terminal creation message
send"` on failure) and then hits `todo!("TODO kb")`. -/
def open_remote_terminal (project_id : Nat) (remote_terminal_id : TerminalId)
    (sendOk : Bool) : RunResult Nat × List RpcMessage :=
  if sendOk then
    (.panic "TODO kb", [RpcMessage.openTerminal project_id remote_terminal_id])
  else
    (.err "remote terminal creation message send", [])

/-- Helper: `findSome?` over a list is `none` iff the function returns `none`
on every element. -/
theorem findSome?_eq_none_of_forall {α β : Type} (f : α → Option β) :
    ∀ (l : List α), (∀ a ∈ l, f a = none) → l.findSome? f = none := by
  intro l h
  induction l with
  | nil => rfl
  | cons a l ih =>
      rw [List.findSome?_cons]
      rw [h a (List.mem_cons_self a l)]
      exact ih fun b hb => h b (List.mem_cons_of_mem a hb)

/-- If no registry entry with the requested id can be upgraded, the lookup
reports absence. -/
theorem lookupTerminal_eq_none (handles : List WeakHandle) (live : Nat → Bool)
    (terminal_id : Nat)
    (h : ∀ handle ∈ handles, handle.id = terminal_id → live handle.id = false) :
    lookupTerminal handles live terminal_id = none := by
  apply findSome?_eq_none_of_forall
  intro handle hmem
  by_cases hid : handle.id = terminal_id
  · have hdead := h handle hmem hid
    rw [hid] at hdead
    simp [hid, hdead]
  · simp [hid]

/-- C2: an `OpenTerminal` request whose id does not resolve to a live
terminal (every registry entry either has a different id or can no longer be
upgraded) makes `handle_open_terminal` return the explicit
`"no terminal found for {id}"` error; it never panics on the stale id. -/
theorem stale_open_terminal_reports_absence (st : Terminals)
    (live : Nat → Bool) (terminal_id : Nat)
    (h : ∀ handle ∈ st.local_handles,
      handle.id = terminal_id → live handle.id = false) :
    handle_open_terminal st live terminal_id
      = .err ("no terminal found for " ++ toString terminal_id) ∧
    ∀ s, handle_open_terminal st live terminal_id ≠ .panic s := by
  have hnone := lookupTerminal_eq_none st.local_handles live terminal_id h
  constructor
  · simp [handle_open_terminal, hnone]
  · intro s
    simp [handle_open_terminal, hnone]

theorem stale_open_terminal_reports_absence_witness :
    handle_open_terminal ⟨[⟨1⟩, ⟨2⟩], []⟩ (fun n => n == 2) 1
      = .err ("no terminal found for " ++ toString 1) ∧
    ∀ s, handle_open_terminal ⟨[⟨1⟩, ⟨2⟩], []⟩ (fun n => n == 2) 1 ≠ .panic s :=
  stale_open_terminal_reports_absence ⟨[⟨1⟩, ⟨2⟩], []⟩ (fun n => n == 2) 1
    (by decide)

/-- C3: the code, not the claim, is at fault.  On a request whose id does
resolve to a live registry terminal, `handle_open_terminal` evaluates
`OpenTerminalResponse { vte_state: todo!("TODO kb"), .. }` and panics instead
of returning the response the spec describes.  Evaluated at the failing
input: registry `[1]`, terminal `1` live, request id `1`. -/
theorem live_open_terminal_panics :
    handle_open_terminal ⟨[⟨1⟩], []⟩ (fun n => n == 1) 1 = .panic "TODO kb" := by
  rfl

/-- C4: a received `UpdateTerminals` message replaces the guest's cached
directory wholesale with the message's `terminals` sequence, and
`shared_terminals` immediately afterwards returns exactly that sequence in
the same order, regardless of the previous contents. -/
theorem update_terminals_replaces_wholesale (st : Terminals)
    (payload_terminals : List TerminalId) :
    shared_terminals (handle_update_terminals st payload_terminals)
      = payload_terminals ∧
    (handle_update_terminals st payload_terminals).local_handles
      = st.local_handles := by
  exact ⟨rfl, rfl⟩

/-- C6: `create_terminal` invoked on a guest (a remote project) fails with
the explicit role error `"creating terminals as a guest is not supported
yet"`, for any builder outcome. -/
theorem guest_create_terminal_fails (st : ProjectState) (builderOk : Bool)
    (h : st.is_remote = true) :
    (create_terminal st builderOk).result
      = .err "creating terminals as a guest is not supported yet" := by
  simp [create_terminal, h]

theorem guest_create_terminal_fails_witness :
    (create_terminal ⟨⟨[], []⟩, true, none, 0⟩ true).result
      = .err "creating terminals as a guest is not supported yet" :=
  guest_create_terminal_fails ⟨⟨[], []⟩, true, none, 0⟩ true rfl

/-- C1 counterexample: host project shared as project 7, registry holding the
single live terminal 1.  When its destruction is observed, the release
observer removes the handle from the registry but sends no message at all —
in particular no `UpdateTerminals` broadcast with the remaining live ids, as
the claim requires. -/
theorem destroy_sends_no_broadcast_cex :
    (observe_release_closure
        ⟨⟨[⟨1⟩], []⟩, false, some 7, 2⟩ 1).state.terminals.local_handles = [] ∧
    (observe_release_closure ⟨⟨[⟨1⟩], []⟩, false, some 7, 2⟩ 1).sent = [] := by
  exact ⟨rfl, rfl⟩

/-- C1 (amended): when a terminal's destruction is observed and its id is
present in the registry, the release observer removes one entry (the first
with that id) and calls `cx.notify()`, but it sends no RPC message — no
`UpdateTerminals` broadcast accompanies destruction; only `create_terminal`
(on a shared project) broadcasts the directory. -/
theorem destroy_removes_and_notifies_without_broadcast (st : ProjectState)
    (id : Nat)
    (h : ∃ handle ∈ st.terminals.local_handles, handle.id = id) :
    (observe_release_closure st id).sent = [] ∧
    (observe_release_closure st id).notified = true ∧
    (observe_release_closure st id).state.terminals.local_handles.length + 1
      = st.terminals.local_handles.length ∧
    (observe_release_closure st id).state.terminals.remote_ids
      = st.terminals.remote_ids := by
  obtain ⟨handle, hmem, hid⟩ := h
  have hi :=
    @List.findIdx?_eq_some_of_exists WeakHandle st.terminals.local_handles
      (fun terminal => terminal.id == id) ⟨handle, hmem, by simp [hid]⟩
  obtain ⟨hlt, -, -⟩ := List.findIdx?_eq_some_iff_getElem.mp hi
  refine ⟨?_, ?_, ?_, ?_⟩ <;>
    simp [observe_release_closure, hi, List.length_eraseIdx_of_lt hlt]
  omega

theorem destroy_removes_and_notifies_without_broadcast_witness :
    (observe_release_closure ⟨⟨[⟨1⟩, ⟨2⟩], [5]⟩, false, some 7, 3⟩ 2).sent = [] ∧
    (observe_release_closure ⟨⟨[⟨1⟩, ⟨2⟩], [5]⟩, false, some 7, 3⟩ 2).notified
      = true ∧
    (observe_release_closure
        ⟨⟨[⟨1⟩, ⟨2⟩], [5]⟩, false, some 7, 3⟩ 2).state.terminals.local_handles.length
        + 1 = 2 ∧
    (observe_release_closure
        ⟨⟨[⟨1⟩, ⟨2⟩], [5]⟩, false, some 7, 3⟩ 2).state.terminals.remote_ids
      = [5] :=
  destroy_removes_and_notifies_without_broadcast
    ⟨⟨[⟨1⟩, ⟨2⟩], [5]⟩, false, some 7, 3⟩ 2 ⟨⟨2⟩, by decide, rfl⟩

/-- C5: a successful host-side `create_terminal` appends the new weak handle
to the registry, attaches a release observer for its id, and — when the
project is shared — broadcasts an `UpdateTerminals` snapshot equal to the
ids of all registry handles, containing the new id and every pre-existing
handle's id. -/
theorem create_terminal_registers_and_broadcasts (st : ProjectState)
    (hHost : st.is_remote = false) :
    (create_terminal st true).result = .ok (freshModelId st) ∧
    (create_terminal st true).state.terminals.local_handles
      = st.terminals.local_handles ++ [⟨freshModelId st⟩] ∧
    (create_terminal st true).observersAttached = [freshModelId st] ∧
    ∀ project_id, st.remote_id = some project_id →
      (create_terminal st true).sent
        = [RpcMessage.updateTerminals project_id
            ((create_terminal st true).state.terminals.local_handles.map
              WeakHandle.id)] ∧
      freshModelId st
        ∈ ((create_terminal st true).state.terminals.local_handles.map
            WeakHandle.id) ∧
      ∀ handle ∈ st.terminals.local_handles,
        handle.id
          ∈ ((create_terminal st true).state.terminals.local_handles.map
              WeakHandle.id) := by
  refine ⟨?_, ?_, ?_, ?_⟩
  · simp [create_terminal, hHost]
  · simp [create_terminal, hHost]
  · simp [create_terminal, hHost]
  · intro project_id hshared
    refine ⟨?_, ?_, ?_⟩
    · simp [create_terminal, hHost, hshared]
    · simp [create_terminal, hHost, freshModelId]
    · intro handle hmem
      simp only [create_terminal, hHost, Bool.false_eq_true, if_false, if_true]
      simp only [List.map_append, List.mem_append]
      exact Or.inl (List.mem_map_of_mem WeakHandle.id hmem)

theorem create_terminal_registers_and_broadcasts_witness :
    (create_terminal ⟨⟨[⟨0⟩], []⟩, false, some 7, 1⟩ true).result = .ok 1 ∧
    (create_terminal ⟨⟨[⟨0⟩], []⟩, false, some 7, 1⟩
        true).state.terminals.local_handles = [⟨0⟩] ++ [⟨1⟩] ∧
    (create_terminal ⟨⟨[⟨0⟩], []⟩, false, some 7, 1⟩ true).observersAttached
      = [1] ∧
    ∀ project_id, (some 7 : Option Nat) = some project_id →
      (create_terminal ⟨⟨[⟨0⟩], []⟩, false, some 7, 1⟩ true).sent
        = [RpcMessage.updateTerminals project_id
            ((create_terminal ⟨⟨[⟨0⟩], []⟩, false, some 7, 1⟩
                true).state.terminals.local_handles.map WeakHandle.id)] ∧
      (1 : Nat)
        ∈ ((create_terminal ⟨⟨[⟨0⟩], []⟩, false, some 7, 1⟩
            true).state.terminals.local_handles.map WeakHandle.id) ∧
      ∀ handle ∈ [(⟨0⟩ : WeakHandle)],
        handle.id
          ∈ ((create_terminal ⟨⟨[⟨0⟩], []⟩, false, some 7, 1⟩
              true).state.terminals.local_handles.map WeakHandle.id) :=
  create_terminal_registers_and_broadcasts ⟨⟨[⟨0⟩], []⟩, false, some 7, 1⟩ rfl

/-- C7: the code, not the claim, is at fault.  `open_remote_terminal` is not
a request/response exchange: it sends a one-way `OpenTerminal` message via
`client.send` (never awaiting a response) and then hits `todo!("TODO kb")`,
panicking instead of returning a remote terminal view.  Evaluated at the
failing input: shared project 7, terminal id 1, send succeeding. -/
theorem open_remote_terminal_panics :
    open_remote_terminal 7 1 true
      = (.panic "TODO kb", [RpcMessage.openTerminal 7 1]) := by
  rfl

/-- C9: when `create_terminal` is invoked in the guest role, it returns an
error and leaves the project state completely unchanged: no handle appended,
`remote_ids` untouched, no observer attached, and no RPC message sent. -/
theorem guest_create_terminal_atomic (st : ProjectState) (builderOk : Bool)
    (h : st.is_remote = true) :
    (create_terminal st builderOk).state = st ∧
    (create_terminal st builderOk).sent = [] ∧
    (create_terminal st builderOk).observersAttached = [] ∧
    ∃ msg, (create_terminal st builderOk).result = .err msg := by
  refine ⟨?_, ?_, ?_, ?_⟩ <;> simp [create_terminal, h]

theorem guest_create_terminal_atomic_witness :
    (create_terminal ⟨⟨[⟨3⟩], [4]⟩, true, some 9, 5⟩ true).state
      = ⟨⟨[⟨3⟩], [4]⟩, true, some 9, 5⟩ ∧
    (create_terminal ⟨⟨[⟨3⟩], [4]⟩, true, some 9, 5⟩ true).sent = [] ∧
    (create_terminal ⟨⟨[⟨3⟩], [4]⟩, true, some 9, 5⟩ true).observersAttached
      = [] ∧
    ∃ msg, (create_terminal ⟨⟨[⟨3⟩], [4]⟩, true, some 9, 5⟩ true).result
      = .err msg :=
  guest_create_terminal_atomic ⟨⟨[⟨3⟩], [4]⟩, true, some 9, 5⟩ true rfl

/-- C10: a successful `create_terminal` broadcasts `UpdateTerminals` only
when the project has a remote id; when `remote_id` is `None` the terminal is
still created and registered, no message is sent, and the rest of the
project state (`remote_ids`, `remote_id`, `is_remote`) is unchanged. -/
theorem create_terminal_broadcast_requires_sharing (st : ProjectState)
    (hHost : st.is_remote = false) :
    ((create_terminal st true).sent ≠ [] → st.remote_id.isSome = true) ∧
    (st.remote_id = none →
      (create_terminal st true).sent = [] ∧
      (create_terminal st true).result = .ok (freshModelId st) ∧
      (create_terminal st true).state.terminals.local_handles
        = st.terminals.local_handles ++ [⟨freshModelId st⟩] ∧
      (create_terminal st true).state.terminals.remote_ids
        = st.terminals.remote_ids ∧
      (create_terminal st true).state.remote_id = st.remote_id ∧
      (create_terminal st true).state.is_remote = st.is_remote) := by
  constructor
  · intro hsent
    rcases hre : st.remote_id with _ | project_id
    · exfalso
      apply hsent
      simp [create_terminal, hHost, hre]
    · rfl
  · intro hnone
    refine ⟨?_, ?_, ?_, ?_, ?_, ?_⟩ <;> simp [create_terminal, hHost, hnone]

theorem create_terminal_broadcast_requires_sharing_witness :
    ((create_terminal ⟨⟨[], [9]⟩, false, none, 0⟩ true).sent ≠ [] →
      (none : Option Nat).isSome = true) ∧
    ((none : Option Nat) = none →
      (create_terminal ⟨⟨[], [9]⟩, false, none, 0⟩ true).sent = [] ∧
      (create_terminal ⟨⟨[], [9]⟩, false, none, 0⟩ true).result = .ok 0 ∧
      (create_terminal ⟨⟨[], [9]⟩, false, none, 0⟩
          true).state.terminals.local_handles = [] ++ [⟨0⟩] ∧
      (create_terminal ⟨⟨[], [9]⟩, false, none, 0⟩
          true).state.terminals.remote_ids = [9] ∧
      (create_terminal ⟨⟨[], [9]⟩, false, none, 0⟩ true).state.remote_id
        = none ∧
      (create_terminal ⟨⟨[], [9]⟩, false, none, 0⟩ true).state.is_remote
        = false) :=
  create_terminal_broadcast_requires_sharing ⟨⟨[], [9]⟩, false, none, 0⟩ rfl

/-- The registry-mutating events of one host project session: a
`create_terminal` call (with the builder outcome) or an observed terminal
destruction. -/
inductive HostOp where
  | create (builderOk : Bool)
  | released (id : Nat)

/-- State transition of one `HostOp`. -/
def stepOp (st : ProjectState) : HostOp → ProjectState
  | .create builderOk => (create_terminal st builderOk).state
  | .released id => (observe_release_closure st id).state

/-- Run a sequence of host operations from a starting state. -/
def runOps (st : ProjectState) : List HostOp → ProjectState
  | [] => st
  | op :: ops => runOps (stepOp st op) ops

/-- A fresh project context: empty registry, empty cached directory, and the
model-id counter at its initial value. -/
def initialProject (isRemote : Bool) (remoteId : Option Nat) : ProjectState :=
  { terminals := { local_handles := [], remote_ids := [] }
    is_remote := isRemote
    remote_id := remoteId
    next_model_id := 0 }

/-- Registry invariant: the handle ids are pairwise distinct and all lie
below the allocator counter (so a fresh id can never collide). -/
def RegistryInv (st : ProjectState) : Prop :=
  (st.terminals.local_handles.map WeakHandle.id).Nodup ∧
  ∀ handle ∈ st.terminals.local_handles, handle.id < st.next_model_id

theorem create_terminal_state_host (st : ProjectState)
    (h : st.is_remote = false) :
    (create_terminal st true).state =
      { st with
        terminals :=
          { st.terminals with
            local_handles :=
              st.terminals.local_handles ++ [⟨st.next_model_id⟩] }
        next_model_id := st.next_model_id + 1 } := by
  simp [create_terminal, h, freshModelId]

theorem registry_inv_create (st : ProjectState) (builderOk : Bool)
    (h : RegistryInv st) : RegistryInv (create_terminal st builderOk).state := by
  obtain ⟨hnodup, hbound⟩ := h
  by_cases hr : st.is_remote = true
  · simp only [create_terminal, hr, if_true]
    exact ⟨hnodup, hbound⟩
  · rw [Bool.not_eq_true] at hr
    cases builderOk with
    | false =>
        simp only [create_terminal, hr, Bool.false_eq_true, if_false]
        exact ⟨hnodup, hbound⟩
    | true =>
        rw [create_terminal_state_host st hr]
        constructor
        · show ((st.terminals.local_handles
              ++ [WeakHandle.mk st.next_model_id]).map WeakHandle.id).Nodup
          simp only [List.map_append, List.map_cons, List.map_nil]
          rw [List.nodup_append]
          refine ⟨hnodup, List.nodup_singleton _, ?_⟩
          intro a ha hb
          simp only [List.mem_singleton] at hb
          subst hb
          obtain ⟨handle, hmem, hideq⟩ := List.mem_map.mp ha
          have := hbound handle hmem
          omega
        · intro handle hmem
          show handle.id < st.next_model_id + 1
          have hmem' :
              handle ∈ st.terminals.local_handles
                ++ [WeakHandle.mk st.next_model_id] :=
            hmem
          simp only [List.mem_append, List.mem_singleton] at hmem'
          cases hmem' with
          | inl hold => exact Nat.lt_succ_of_lt (hbound handle hold)
          | inr hnew =>
              rw [hnew]
              exact Nat.lt_succ_self st.next_model_id

theorem registry_inv_release (st : ProjectState) (id : Nat)
    (h : RegistryInv st) : RegistryInv (observe_release_closure st id).state := by
  obtain ⟨hnodup, hbound⟩ := h
  cases hfind :
    st.terminals.local_handles.findIdx? (fun terminal => terminal.id == id) with
  | none =>
      have hstate : (observe_release_closure st id).state = st := by
        simp [observe_release_closure, hfind]
      rw [hstate]
      exact ⟨hnodup, hbound⟩
  | some index =>
      have hstate : (observe_release_closure st id).state =
          { st with
            terminals :=
              { st.terminals with
                local_handles :=
                  st.terminals.local_handles.eraseIdx index } } := by
        simp [observe_release_closure, hfind]
      rw [hstate]
      have hsub :
          List.Sublist (st.terminals.local_handles.eraseIdx index)
            st.terminals.local_handles :=
        List.eraseIdx_sublist st.terminals.local_handles index
      refine ⟨?_, ?_⟩
      · exact hnodup.sublist (hsub.map WeakHandle.id)
      · intro handle hmem
        exact hbound handle (hsub.subset hmem)

theorem stepOp_preserves_inv (st : ProjectState) (op : HostOp)
    (h : RegistryInv st) : RegistryInv (stepOp st op) := by
  cases op with
  | create builderOk => exact registry_inv_create st builderOk h
  | released id => exact registry_inv_release st id h

theorem runOps_preserves_inv (ops : List HostOp) (st : ProjectState)
    (h : RegistryInv st) : RegistryInv (runOps st ops) := by
  induction ops generalizing st with
  | nil => exact h
  | cons op ops ih => exact ih (stepOp st op) (stepOp_preserves_inv st op h)

/-- C8: over any sequence of creations and observed destructions within one
project session, the `TerminalId` values held in the Local Terminal Registry
are pairwise distinct: no id is duplicated, and (since the allocator counter
stays above every live id) an id is never reissued while the terminal that
owns it is still registered. -/
theorem registry_ids_pairwise_distinct (ops : List HostOp) (isRemote : Bool)
    (remoteId : Option Nat) :
    ((runOps (initialProject isRemote remoteId)
        ops).terminals.local_handles.map WeakHandle.id).Nodup :=
  (runOps_preserves_inv ops (initialProject isRemote remoteId)
    ⟨List.nodup_nil, by simp [initialProject]⟩).1
